import Mathlib

/-!
# Verification of the createVoiceAgent streaming TTS pipeline

Shallow embedding of the two core pipeline stages of the repository:

* `ThinkingFillerTransform` (src/packages/webrtc/src/ThinkingFillerTransform.ts),
  the FillerInjector of the spec: a turn-scoped timer state machine that
  overlays filler phrases on a passthrough token stream;
* `ElevenLabsTTSTransform` (src/packages/web/src/transforms/ElevenLabsTTSTransform.ts),
  the StreamingSynthesisAdapter of the spec: a stage driving a lazy,
  reconnectable WebSocket connection with a begin/per-token/end protocol.

The embedding is executable: the mutable closure state of each stage becomes a
record, each event handler of the source becomes a function on that record, and
the single-threaded event loop becomes a fold of an event list.  Timer
cancellation (clearTimeout / clearInterval) is modelled by a table of live host
timer ids kept next to the stored handle fields, exactly mirroring which
handles the source stores and which host timers are actually scheduled.
-/

namespace CVA

/-! ## ThinkingFillerTransform -/

/-- Options record of `ThinkingFillerTransform` (ThinkingFillerTransform.ts,
lines 12–47), with the defaults of the constructor (lines 64–78).  The
`onFillerEmitted` callback may throw, which the embedding models as an
`Except` result. -/
structure ThinkingFillerOptions where
  thresholdMs : Nat := 1000
  fillerPhrases : List String :=
    ["Let me see here...", "Hmm, one moment...", "Ah, let me think...",
     "Just a second...", "Mhm, okay..."]
  enabled : Bool := true
  maxFillersPerTurn : Nat := 1
  fillerIntervalMs : Nat := 2000
  onFillerEmitted : Option (String → Except String Unit) := none

/-- One chunk enqueued to the output side of the transform: either a filler
phrase (enqueued by `emitFiller`, line 243) or a real token passed through by
`transform` (line 116). -/
inductive FOut
  | filler (phrase : String)
  | real (chunk : String)
deriving DecidableEq

/-- The closure state `self` of the transform (lines 81–94) together with the
host timer table.  `timeoutId` / `intervalId` are the stored handles; a handle
is only *live* (its callback can still run) while it is in `activeTimeouts` /
`activeIntervals`, which models what `setTimeout` / `setInterval` schedule and
what `clearTimeout` / `clearInterval` cancel.  `nextTimer` supplies fresh
handles. -/
structure FillerSelf where
  controller : Bool := false
  timeoutId : Option Nat := none
  intervalId : Option Nat := none
  fillersEmittedThisTurn : Nat := 0
  isProcessing : Bool := false
  hasReceivedResponse : Bool := false
  activeTimeouts : List Nat := []
  activeIntervals : List Nat := []
  nextTimer : Nat := 0
deriving DecidableEq

/-- Initial state: the fresh closure state built in the constructor. -/
def initFiller : FillerSelf := {}

/-- `emitFiller` (lines 227–248).  `r` models the value
`Math.floor(Math.random() * fillerPhrases.length)` of line 238.  The phrase is
enqueued and the counter incremented *before* the observer callback runs
(lines 243–247); the callback is invoked with no surrounding try/catch, so its
exception becomes the exception of `emitFiller` itself. -/
def emitFiller (cfg : ThinkingFillerOptions) (s : FillerSelf) (r : Nat) :
    FillerSelf × List FOut × Except String Unit :=
  if s.controller = false ∨ s.hasReceivedResponse = true ∨
      cfg.maxFillersPerTurn ≤ s.fillersEmittedThisTurn then
    (s, [], .ok ())
  else
    let phrase := cfg.fillerPhrases.getD (r % cfg.fillerPhrases.length) ""
    let s2 := { s with fillersEmittedThisTurn := s.fillersEmittedThisTurn + 1 }
    (s2, [.filler phrase],
     match cfg.onFillerEmitted with
     | none => .ok ()
     | some cb => cb phrase)

/-- `notifyProcessingStarted` (lines 148–188) up to arming the threshold
timer: reset the per-turn state, `clearTimeout(self.timeoutId)` and
`clearInterval(self.intervalId)` (lines 160–165: the source clears the host
timers but does not null the fields), then store a fresh timeout handle
(line 168).  The callback body of that timeout is `timeoutBody` below. -/
def notifyProcessingStarted (cfg : ThinkingFillerOptions) (s : FillerSelf) :
    FillerSelf :=
  if cfg.enabled = false then s
  else
    let s1 := { s with fillersEmittedThisTurn := 0, isProcessing := true,
                       hasReceivedResponse := false }
    let s2 := match s1.timeoutId with
      | some h => { s1 with activeTimeouts := s1.activeTimeouts.erase h }
      | none => s1
    let s3 := match s2.intervalId with
      | some h => { s2 with activeIntervals := s2.activeIntervals.erase h }
      | none => s2
    { s3 with timeoutId := some s3.nextTimer,
              activeTimeouts := s3.nextTimer :: s3.activeTimeouts,
              nextTimer := s3.nextTimer + 1 }

/-- `transform(chunk, controller)` of the underlying TransformStream
(lines 101–117): clear and null both timer handles, set
`hasReceivedResponse = true`, `isProcessing = false`, and pass the chunk
through. -/
def transformStep (s : FillerSelf) (tok : String) : FillerSelf × List FOut :=
  let s1 := match s.timeoutId with
    | some h => { s with activeTimeouts := s.activeTimeouts.erase h,
                         timeoutId := none }
    | none => s
  let s2 := match s1.intervalId with
    | some h => { s1 with activeIntervals := s1.activeIntervals.erase h,
                          intervalId := none }
    | none => s1
  ({ s2 with hasReceivedResponse := true, isProcessing := false },
   [.real tok])

/-- `flush()` of the underlying TransformStream (lines 119–129): clear and
null both timer handles. -/
def flushStep (s : FillerSelf) : FillerSelf :=
  let s1 := match s.timeoutId with
    | some h => { s with activeTimeouts := s.activeTimeouts.erase h,
                         timeoutId := none }
    | none => s
  match s1.intervalId with
  | some h => { s1 with activeIntervals := s1.activeIntervals.erase h,
                        intervalId := none }
  | none => s1

/-- `cancelPendingFiller` (lines 194–208): clear and null both timer handles
and set `isProcessing = false`; `hasReceivedResponse` is not touched. -/
def cancelPendingFiller (s : FillerSelf) : FillerSelf :=
  let s1 := match s.timeoutId with
    | some h => { s with activeTimeouts := s.activeTimeouts.erase h,
                         timeoutId := none }
    | none => s
  let s2 := match s1.intervalId with
    | some h => { s1 with activeIntervals := s1.activeIntervals.erase h,
                          intervalId := none }
    | none => s1
  { s2 with isProcessing := false }

/-- Body of the threshold `setTimeout` callback (lines 168–187): call
`emitFiller`; if it returns normally and `maxFillersPerTurn > 1`, store and
schedule a fresh interval handle.  A thrown callback exception aborts the rest
of the body and escapes to the host event loop (third component). -/
def timeoutBody (cfg : ThinkingFillerOptions) (s : FillerSelf) (r : Nat) :
    FillerSelf × List FOut × Option String :=
  match emitFiller cfg s r with
  | (s1, outs, .error msg) => (s1, outs, some msg)
  | (s1, outs, .ok _) =>
    if 1 < cfg.maxFillersPerTurn then
      ({ s1 with intervalId := some s1.nextTimer,
                 activeIntervals := s1.nextTimer :: s1.activeIntervals,
                 nextTimer := s1.nextTimer + 1 }, outs, none)
    else (s1, outs, none)

/-- Body of the `setInterval` callback (lines 173–184): re-check the counter
and the response flag; emit if still allowed, otherwise
`clearInterval(self.intervalId)` and null the field. -/
def intervalBody (cfg : ThinkingFillerOptions) (s : FillerSelf) (r : Nat) :
    FillerSelf × List FOut × Option String :=
  if s.fillersEmittedThisTurn < cfg.maxFillersPerTurn ∧
      s.hasReceivedResponse = false then
    match emitFiller cfg s r with
    | (s1, outs, .error msg) => (s1, outs, some msg)
    | (s1, outs, .ok _) => (s1, outs, none)
  else
    match s.intervalId with
    | some h => ({ s with activeIntervals := s.activeIntervals.erase h,
                          intervalId := none }, [], none)
    | none => (s, [], none)

/-- Events of the single-threaded event loop driving the transform.
`timeoutFire id r` / `intervalFire id r` deliver a host timer callback; the
callback only runs if the id is still live (a cleared timer never fires).  A
fired timeout is one-shot and is removed from the live table; a fired interval
stays scheduled. -/
inductive FEv
  | startEv
  | notifyStart
  | transformTok (tok : String)
  | cancelPending
  | flushEv
  | timeoutFire (id : Nat) (r : Nat)
  | intervalFire (id : Nat) (r : Nat)
deriving DecidableEq

/-- One event-loop step.  Returns the new state, the chunks enqueued during
the step, and an exception (if any) that escaped the handler uncaught. -/
def fillerStep (cfg : ThinkingFillerOptions) (s : FillerSelf) :
    FEv → FillerSelf × List FOut × Option String
  | .startEv => ({ s with controller := true }, [], none)
  | .notifyStart => (notifyProcessingStarted cfg s, [], none)
  | .transformTok tok =>
      let p := transformStep s tok
      (p.1, p.2, none)
  | .cancelPending => (cancelPendingFiller s, [], none)
  | .flushEv => (flushStep s, [], none)
  | .timeoutFire id r =>
      if id ∈ s.activeTimeouts then
        timeoutBody cfg { s with activeTimeouts := s.activeTimeouts.erase id } r
      else (s, [], none)
  | .intervalFire id r =>
      if id ∈ s.activeIntervals then intervalBody cfg s r
      else (s, [], none)

/-- Run a list of events; collects all outputs and all uncaught exceptions. -/
def fillerRun (cfg : ThinkingFillerOptions) (s : FillerSelf) :
    List FEv → FillerSelf × List FOut × List String
  | [] => (s, [], [])
  | e :: evs =>
    let p := fillerStep cfg s e
    let q := fillerRun cfg p.1 evs
    (q.1, p.2.1 ++ q.2.1, p.2.2.toList ++ q.2.2)

/-- Number of filler chunks in an output list. -/
def fillerCount : List FOut → Nat
  | [] => 0
  | .filler _ :: rest => fillerCount rest + 1
  | .real _ :: rest => fillerCount rest

/-- Timer-table invariant of every reachable transform state: each live host
timer is the one whose handle is currently stored (the source always clears
the stored handle before overwriting it), and while the threshold timeout is
live no interval is (the interval is only created when the threshold timeout
fires).  This is what makes `cancelPendingFiller`, which clears only the
*stored* handles, cancel *all* live timers. -/
def TInv (s : FillerSelf) : Prop :=
  (s.activeTimeouts = [] ∨
    ∃ h, s.timeoutId = some h ∧ s.activeTimeouts = [h]) ∧
  (s.activeIntervals = [] ∨
    ∃ h, s.intervalId = some h ∧ s.activeIntervals = [h]) ∧
  (s.activeTimeouts ≠ [] → s.activeIntervals = [])

/-! ## ElevenLabsTTSTransform -/

/-- `ElevenLabsOptions` (ElevenLabsTTSTransform.ts, lines 3–9).  Numbers are
modelled as rationals. -/
structure ElevenLabsOptions where
  apiKey : String
  voiceId : String
  modelId : Option String := none
  stability : Option ℚ := none
  similarityBoost : Option ℚ := none

/-- JSON values, enough for the outbound protocol messages the transform
serializes with `JSON.stringify`. -/
inductive JVal
  | str (s : String)
  | num (q : ℚ)
  | bool (b : Bool)
  | obj (fields : List (String × JVal))

/-- Key lookup in the field list of a JSON object. -/
def lookupIn : List (String × JVal) → String → Option JVal
  | [], _ => none
  | (k, v) :: rest, key => if k = key then some v else lookupIn rest key

/-- Key lookup in a JSON object value. -/
def lookupKey : JVal → String → Option JVal
  | .obj fields, key => lookupIn fields key
  | _, _ => none

/-- JavaScript `a || b` on an optional string: the default is used when the
value is absent or falsy (the empty string). -/
def jsOrStr (o : Option String) (d : String) : String :=
  match o with
  | none => d
  | some s => if s = "" then d else s

/-- JavaScript `a || b` on an optional number: the default is used when the
value is absent or falsy (zero). -/
def jsOrNum (o : Option ℚ) (d : ℚ) : ℚ :=
  match o with
  | none => d
  | some q => if q = 0 then d else q

/-- `getWebSocketUrl` (lines 29–32). -/
def getWebSocketUrl (options : ElevenLabsOptions) : String :=
  let modelId := jsOrStr options.modelId "eleven_monolingual_v1"
  "wss://api.elevenlabs.io/v1/text-to-speech/" ++ options.voiceId ++
    "/stream-input?model_id=" ++ modelId ++ "&output_format=pcm_16000"

/-- The BOS (beginning of stream) message sent in the `open` handler
(lines 45–52): `stability` and `similarity_boost` are combined with their
defaults by `||` (falsy coalescing), and the raw `apiKey` is embedded under
`xi_api_key`. -/
def bosMessage (options : ElevenLabsOptions) : JVal :=
  .obj [("text", .str " "),
        ("voice_settings", .obj
          [("stability", .num (jsOrNum options.stability (1/2))),
           ("similarity_boost", .num (jsOrNum options.similarityBoost (3/4)))]),
        ("xi_api_key", .str options.apiKey)]

/-- The per-token message built in `transform` (line 139):
`{ text: token, try_trigger_generation: true }`. -/
def tokenPayload (token : String) : JVal :=
  .obj [("text", .str token), ("try_trigger_generation", .bool true)]

/-- The EOS (end of stream) message sent in `flush` (line 157). -/
def eosMessage : JVal := .obj [("text", .str "")]

/-- The `voice_settings.stability` field of the BOS message. -/
def bosStabilityVal (options : ElevenLabsOptions) : Option JVal :=
  (lookupKey (bosMessage options) "voice_settings").bind
    fun v => lookupKey v "stability"

/-- The `voice_settings.similarity_boost` field of the BOS message. -/
def bosSimilarityVal (options : ElevenLabsOptions) : Option JVal :=
  (lookupKey (bosMessage options) "voice_settings").bind
    fun v => lookupKey v "similarity_boost"

/-- Lifecycle phase of one WebSocket object created by `createConnection`. -/
inductive SockPhase
  | connecting
  | opened
  | closedSock
deriving DecidableEq

/-- One WebSocket object: its phase and whether its `close` handler has
already run (the handler runs at most once per socket). -/
structure Sock where
  phase : SockPhase
  closeRan : Bool
deriving DecidableEq

/-- Settlement state of the promise returned by one `createConnection` call. -/
inductive PromState
  | pendingProm
  | fulfilled
  | rejectedProm
deriving DecidableEq

/-- Where a suspended `transform` call is parked: at the
`await connectionPromise` of line 119 (awaiting a pre-existing attempt) or at
the `await connectionPromise` of line 126 (awaiting the attempt it has just
started). -/
inductive AwaitPt
  | existing (p : Nat)
  | freshAttempt (p : Nat)
deriving DecidableEq

/-- The promise a suspended transform is awaiting. -/
def AwaitPt.prom : AwaitPt → Nat
  | .existing p => p
  | .freshAttempt p => p

/-- A suspended `transform(token)` call. -/
structure PendingT where
  tok : String
  pt : AwaitPt
deriving DecidableEq

/-- The closure state of the `ElevenLabsTTSTransform` constructor
(lines 13–27) together with the host WebSocket objects and promise states.
Socket `i` and the promise of the `createConnection` call that made it share
the index `i`.  `finalSlot` models `finalResolve !== null` (a waiting pending
flush resolver); `finalGenResolved` counts how often the waiter of the current
`finalPromise` generation has been resolved.  `sent` records every message
passed to `ws.send`, in order; `output` records every audio payload enqueued
downstream; `dropped` records every token dropped by the
catch/warn paths of `transform`. -/
structure AdapterState where
  sockets : List Sock := []
  promises : List PromState := []
  ws : Option Nat := none
  connectionPromise : Option Nat := none
  isShuttingDown : Bool := false
  finalSlot : Bool := false
  finalGenResolved : Nat := 0
  pending : Option PendingT := none
  sent : List JVal := []
  output : List String := []
  dropped : List String := []

/-- Initial closure state set up by the constructor (lines 13–27).  The
constructor performs no validation of `options`: it only initializes the
closure variables, so the embedded constructor returns `.ok` for every
options record, including an empty `apiKey` or `voiceId`. -/
def mkElevenLabsTTSTransform (_options : ElevenLabsOptions) :
    Except String AdapterState :=
  .ok {}

/-- `ws !== null && ws.readyState === WebSocket.OPEN` for socket `i`. -/
def isOpenSock (s : AdapterState) (i : Nat) : Bool :=
  match s.sockets.get? i with
  | some sk => sk.phase = .opened
  | none => false

/-- The readiness check of lines 114 and 138. -/
def wsOpen (s : AdapterState) : Bool :=
  match s.ws with
  | some i => isOpenSock s i
  | none => false

/-- `resetFinalPromise` (lines 23–27): install a fresh pending-flush waiter. -/
def resetFinalPromise (s : AdapterState) : AdapterState :=
  { s with finalSlot := true, finalGenResolved := 0 }

/-- `if (finalResolve) { finalResolve(); finalResolve = null; }`, the shared
resolution step of the message handler (lines 69–74) and the close handler
(lines 103–107). -/
def resolveFinal (s : AdapterState) : AdapterState :=
  if s.finalSlot then
    { s with finalSlot := false, finalGenResolved := s.finalGenResolved + 1 }
  else s

/-- `createConnection` (lines 34–110) up to its first suspension: reset the
final promise, create a new WebSocket (a fresh socket index) and a new pending
connection promise with the same index. -/
def createConnection (s : AdapterState) : AdapterState × Nat :=
  let s1 := resetFinalPromise s
  ({ s1 with sockets := s1.sockets ++ [⟨.connecting, false⟩],
             promises := s1.promises ++ [.pendingProm] }, s1.sockets.length)

/-- Continuation of `ensureConnection` after the `await connectionPromise` of
line 119 resolved: re-check readiness (line 120); if the socket is open the
token is sent (line 138–140), otherwise a new connection attempt starts
(lines 125–126) and the transform suspends on it. -/
def afterExistingFulfilled (s : AdapterState) (tok : String) : AdapterState :=
  if wsOpen s then { s with sent := s.sent ++ [tokenPayload tok] }
  else
    let p := createConnection s
    { p.1 with connectionPromise := some p.2,
               pending := some ⟨tok, .freshAttempt p.2⟩ }

/-- `transform(token)` (lines 133–150) run until it completes or suspends:
drop silently when shutting down; send immediately over an open socket; await
a pending attempt; continue synchronously past an already settled attempt (an
already rejected `connectionPromise` makes the `await` of line 119 throw, the
catch of line 147 logs, and the token is dropped — `connectionPromise` is not
cleared on this path); or start a fresh attempt when none exists. -/
def startTransform (s : AdapterState) (tok : String) : AdapterState :=
  if s.isShuttingDown then s
  else if wsOpen s then { s with sent := s.sent ++ [tokenPayload tok] }
  else
    match s.connectionPromise with
    | some p =>
      match s.promises.getD p .pendingProm with
      | .pendingProm => { s with pending := some ⟨tok, .existing p⟩ }
      | .fulfilled => afterExistingFulfilled s tok
      | .rejectedProm => { s with dropped := s.dropped ++ [tok] }
    | none =>
      let p := createConnection s
      { p.1 with connectionPromise := some p.2,
                 pending := some ⟨tok, .freshAttempt p.2⟩ }

/-- Resume the suspended transform (if any) after promise `p` was fulfilled.
From the `await` of line 119 the continuation is `afterExistingFulfilled`;
from the `await` of line 126 `ensureConnection` returns and `transform`
re-checks readiness (line 138): an open socket receives the token, otherwise
the token is dropped with a warning (lines 141–146). -/
def resumeFulfilled (s : AdapterState) (p : Nat) : AdapterState :=
  match s.pending with
  | some pt =>
    if pt.pt.prom = p then
      match pt.pt with
      | .existing _ => afterExistingFulfilled { s with pending := none } pt.tok
      | .freshAttempt _ =>
        if wsOpen { s with pending := none } then
          { s with pending := none, sent := s.sent ++ [tokenPayload pt.tok] }
        else
          { s with pending := none, dropped := s.dropped ++ [pt.tok] }
    else s
  | none => s

/-- Resume the suspended transform (if any) after promise `p` was rejected:
the `await` throws, the catch of line 147 logs, and the token is dropped. -/
def resumeRejected (s : AdapterState) (p : Nat) : AdapterState :=
  match s.pending with
  | some pt =>
    if pt.pt.prom = p then
      { s with pending := none, dropped := s.dropped ++ [pt.tok] }
    else s
  | none => s

/-- The `open` handler (lines 42–56): send the BOS message, publish the socket
as `ws`, resolve the connection promise, then the awaiting transform (if any)
resumes. -/
def stepOpen (opts : ElevenLabsOptions) (s : AdapterState) (i : Nat) :
    AdapterState :=
  match s.sockets.get? i with
  | some sk =>
    if sk.phase = .connecting then
      let s1 := { s with
        sockets := s.sockets.set i { sk with phase := .opened },
        sent := s.sent ++ [bosMessage opts],
        ws := some i,
        promises := s.promises.set i .fulfilled }
      resumeFulfilled s1 i
    else s
  | none => s

/-- The `if (ws === newWs) { ws = null; connectionPromise = null; }` guard
shared by the error handler (lines 88–91) and the close handler
(lines 99–102). -/
def clearIfCurrent (s : AdapterState) (i : Nat) : AdapterState :=
  if s.ws = some i then { s with ws := none, connectionPromise := none }
  else s

/-- `reject(err)` (line 92): settle the connection promise if it is still
pending; the awaiting transform (if any) then resumes with the rejection. -/
def errorSettle (s : AdapterState) (i : Nat) : AdapterState :=
  if s.promises.getD i .fulfilled = .pendingProm then
    resumeRejected { s with promises := s.promises.set i .rejectedProm } i
  else s

/-- The `error` handler (lines 86–93): the connection-scoped state is cleared
only when `ws === newWs` — which is never the case for a socket that failed
before its `open` handler ran, since `ws` is assigned only there.  `reject`
settles the connection promise only if it is still pending, and the awaiting
transform (if any) resumes with the rejection. -/
def stepError (_opts : ElevenLabsOptions) (s : AdapterState) (i : Nat) :
    AdapterState :=
  match s.sockets.get? i with
  | some sk =>
    if sk.phase = .closedSock then s
    else
      errorSettle
        (clearIfCurrent
          { s with sockets := s.sockets.set i { sk with phase := .closedSock } }
          i) i
  | none => s

/-- The `close` handler (lines 95–108): clear connection-scoped state when
`ws === newWs`, and resolve any pending flush waiter.  The connection promise
itself is not settled here. -/
def stepClose (_opts : ElevenLabsOptions) (s : AdapterState) (i : Nat) :
    AdapterState :=
  match s.sockets.get? i with
  | some sk =>
    if sk.closeRan then s
    else
      resolveFinal
        (clearIfCurrent
          { s with
            sockets := s.sockets.set i { sk with phase := .closedSock, closeRan := true } }
          i)
  | none => s

/-- The `message` handler for an audio payload (lines 63–68): decode and
enqueue downstream in arrival order. -/
def stepMsgAudio (s : AdapterState) (i : Nat) (payload : String) :
    AdapterState :=
  if isOpenSock s i then { s with output := s.output ++ [payload] } else s

/-- The `message` handler for an `isFinal` payload (lines 69–74): resolve the
pending flush waiter exactly once; with no waiter installed the message does
nothing. -/
def stepMsgFinal (s : AdapterState) (i : Nat) : AdapterState :=
  if isOpenSock s i then resolveFinal s else s

/-- The `message` handler for an `error` payload (lines 75–80): logged and
otherwise ignored. -/
def stepMsgError (s : AdapterState) (_i : Nat) (_e : String) : AdapterState :=
  s

/-- Events delivered to the adapter by its single-threaded event loop: a token
from the pipeline, and the socket callbacks.  The TransformStream contract
serializes `transform` invocations, so a token is only delivered while no
transform is suspended. -/
inductive AEv
  | token (tok : String)
  | openEv (i : Nat)
  | errorEv (i : Nat)
  | closeEv (i : Nat)
  | msgAudio (i : Nat) (payload : String)
  | msgFinal (i : Nat)
  | msgError (i : Nat) (e : String)

/-- One adapter event-loop step. -/
def adapterStep (opts : ElevenLabsOptions) (s : AdapterState) :
    AEv → AdapterState
  | .token tok => if s.pending = none then startTransform s tok else s
  | .openEv i => stepOpen opts s i
  | .errorEv i => stepError opts s i
  | .closeEv i => stepClose opts s i
  | .msgAudio i payload => stepMsgAudio s i payload
  | .msgFinal i => stepMsgFinal s i
  | .msgError i e => stepMsgError s i e

/-- Run a list of adapter events. -/
def adapterRun (opts : ElevenLabsOptions) (s : AdapterState) :
    List AEv → AdapterState
  | [] => s
  | e :: evs => adapterRun opts (adapterStep opts s e) evs

/-- Initial adapter state. -/
def initAdapter : AdapterState := {}

/-! ## Flush timing (lines 151–178)

`flush` sets `isShuttingDown`, and — when the socket is open — sends the EOS
message and awaits `Promise.race([finalPromise, timeoutPromise])`, where
`timeoutPromise` is a `setTimeout` of the literal 5000 ms (lines 160–165).
Virtual-time model: the race resolves at the earlier of the waiter resolution
time and the timeout deadline; with a closed socket `flush` skips the wait. -/

/-- The literal 5000 ms timeout of the `setTimeout` in `flush` (line 164). -/
def flushTimeoutMs : Nat := 5000

/-- Resolve time of `Promise.race([finalPromise, timeoutPromise])` for a
flush started at `tFlush`, when the final waiter resolves at `finalAt` (or
never, for `none`). -/
def raceResolveTime (finalAt : Option Nat) (tFlush : Nat) : Nat :=
  match finalAt with
  | some tf => min tf (tFlush + flushTimeoutMs)
  | none => tFlush + flushTimeoutMs

/-- Completion time of a `flush` started at `tFlush`: with an open socket it
awaits the race, otherwise it returns at once. -/
def flushCompleteTime (wsIsOpen : Bool) (finalAt : Option Nat) (tFlush : Nat) :
    Nat :=
  if wsIsOpen then raceResolveTime finalAt tFlush else tFlush

/-- A concrete well-formed options record used for sample runs. -/
def optsKV : ElevenLabsOptions := { apiKey := "k", voiceId := "v" }

/-- Invariant of the pending-flush waiter: within one `finalPromise`
generation the waiter is resolved at most once, and while the waiter is still
installed it has not been resolved. -/
def FinalInv (s : AdapterState) : Prop :=
  s.finalGenResolved ≤ 1 ∧ (s.finalSlot = true → s.finalGenResolved = 0)

/-- Shape of a message passed to `ws.send`: either the BOS handshake or a
per-token message for a token satisfying `T`. -/
def MsgOk (opts : ElevenLabsOptions) (T : String → Prop) (m : JVal) : Prop :=
  m = bosMessage opts ∨ ∃ tok, m = tokenPayload tok ∧ T tok

/-- Every sent message is well-shaped and every suspended transform carries a
token satisfying `T`. -/
def SentInv (opts : ElevenLabsOptions) (T : String → Prop)
    (s : AdapterState) : Prop :=
  (∀ m ∈ s.sent, MsgOk opts T m) ∧
  (∀ pt : PendingT, s.pending = some pt → T pt.tok)

/-! ## Lemmas: ThinkingFillerTransform -/

theorem fillerCount_append (a b : List FOut) :
    fillerCount (a ++ b) = fillerCount a + fillerCount b := by
  induction a with
  | nil => simp [fillerCount]
  | cons x rest ih =>
    cases x <;> simp [fillerCount, ih] <;> omega

theorem emitFiller_of_flag (cfg : ThinkingFillerOptions) (s : FillerSelf)
    (r : Nat) (h : s.hasReceivedResponse = true) :
    emitFiller cfg s r = (s, [], .ok ()) := by
  unfold emitFiller
  rw [if_pos (Or.inr (Or.inl h))]

theorem emitFiller_flag (cfg : ThinkingFillerOptions) (s : FillerSelf)
    (r : Nat) :
    (emitFiller cfg s r).1.hasReceivedResponse = s.hasReceivedResponse := by
  unfold emitFiller
  split <;> rfl

theorem emitFiller_timers (cfg : ThinkingFillerOptions) (s : FillerSelf)
    (r : Nat) :
    (emitFiller cfg s r).1.timeoutId = s.timeoutId ∧
    (emitFiller cfg s r).1.intervalId = s.intervalId ∧
    (emitFiller cfg s r).1.activeTimeouts = s.activeTimeouts ∧
    (emitFiller cfg s r).1.activeIntervals = s.activeIntervals ∧
    (emitFiller cfg s r).1.nextTimer = s.nextTimer := by
  unfold emitFiller
  split <;> exact ⟨rfl, rfl, rfl, rfl, rfl⟩

theorem emitFiller_counter (cfg : ThinkingFillerOptions) (s : FillerSelf)
    (r : Nat) :
    (emitFiller cfg s r).1.fillersEmittedThisTurn =
      s.fillersEmittedThisTurn + fillerCount (emitFiller cfg s r).2.1 := by
  unfold emitFiller
  split <;> simp [fillerCount]

theorem emitFiller_counter_le (cfg : ThinkingFillerOptions) (s : FillerSelf)
    (r : Nat) (h : s.fillersEmittedThisTurn ≤ cfg.maxFillersPerTurn) :
    (emitFiller cfg s r).1.fillersEmittedThisTurn ≤ cfg.maxFillersPerTurn := by
  unfold emitFiller
  split
  · exact h
  · next hg =>
    push_neg at hg
    simp only []
    omega

theorem timeoutBody_flag (cfg : ThinkingFillerOptions) (s : FillerSelf)
    (r : Nat) :
    (timeoutBody cfg s r).1.hasReceivedResponse = s.hasReceivedResponse := by
  have hE := emitFiller_flag cfg s r
  unfold timeoutBody
  rcases hEq : emitFiller cfg s r with ⟨s1, outs, res⟩
  rw [hEq] at hE
  cases res with
  | error msg => exact hE
  | ok _ =>
    dsimp only []
    split <;> exact hE

theorem timeoutBody_of_flag (cfg : ThinkingFillerOptions) (s : FillerSelf)
    (r : Nat) (h : s.hasReceivedResponse = true) :
    fillerCount (timeoutBody cfg s r).2.1 = 0 := by
  unfold timeoutBody
  rw [emitFiller_of_flag cfg s r h]
  dsimp only []
  split <;> rfl

theorem intervalBody_flag (cfg : ThinkingFillerOptions) (s : FillerSelf)
    (r : Nat) :
    (intervalBody cfg s r).1.hasReceivedResponse = s.hasReceivedResponse := by
  have hE := emitFiller_flag cfg s r
  unfold intervalBody
  split
  · rcases hEq : emitFiller cfg s r with ⟨s1, outs, res⟩
    rw [hEq] at hE
    cases res with
    | error msg => exact hE
    | ok _ => exact hE
  · split <;> rfl

theorem intervalBody_of_flag (cfg : ThinkingFillerOptions) (s : FillerSelf)
    (r : Nat) (h : s.hasReceivedResponse = true) :
    fillerCount (intervalBody cfg s r).2.1 = 0 := by
  unfold intervalBody
  split
  · next hc => rw [h] at hc; simp at hc
  · split <;> rfl

theorem transformStep_flag (s : FillerSelf) (tok : String) :
    (transformStep s tok).1.hasReceivedResponse = true := by
  unfold transformStep
  cases h1 : s.timeoutId <;> simp [h1] <;> split <;> rfl

theorem cancelPendingFiller_flag (s : FillerSelf) :
    (cancelPendingFiller s).hasReceivedResponse = s.hasReceivedResponse := by
  unfold cancelPendingFiller
  cases h1 : s.timeoutId <;> simp [h1] <;> split <;> rfl

theorem flushStep_flag (s : FillerSelf) :
    (flushStep s).hasReceivedResponse = s.hasReceivedResponse := by
  unfold flushStep
  cases h1 : s.timeoutId <;> simp [h1] <;> split <;> rfl

theorem fillerStep_flag_mono (cfg : ThinkingFillerOptions) (s : FillerSelf)
    (e : FEv) (hne : e ≠ FEv.notifyStart)
    (h : s.hasReceivedResponse = true) :
    (fillerStep cfg s e).1.hasReceivedResponse = true := by
  cases e with
  | startEv => exact h
  | notifyStart => exact absurd rfl hne
  | transformTok tok => exact transformStep_flag s tok
  | cancelPending => rw [show (fillerStep cfg s .cancelPending).1 =
      cancelPendingFiller s from rfl, cancelPendingFiller_flag]; exact h
  | flushEv => rw [show (fillerStep cfg s .flushEv).1 = flushStep s from rfl,
      flushStep_flag]; exact h
  | timeoutFire id r =>
    simp only [fillerStep]
    split
    · rw [timeoutBody_flag]; exact h
    · exact h
  | intervalFire id r =>
    simp only [fillerStep]
    split
    · rw [intervalBody_flag]; exact h
    · exact h

theorem fillerStep_no_filler_of_flag (cfg : ThinkingFillerOptions)
    (s : FillerSelf) (e : FEv) (h : s.hasReceivedResponse = true) :
    fillerCount (fillerStep cfg s e).2.1 = 0 := by
  cases e with
  | startEv => rfl
  | notifyStart => rfl
  | transformTok tok => rfl
  | cancelPending => rfl
  | flushEv => rfl
  | timeoutFire id r =>
    simp only [fillerStep]
    split
    · exact timeoutBody_of_flag cfg _ r h
    · rfl
  | intervalFire id r =>
    simp only [fillerStep]
    split
    · exact intervalBody_of_flag cfg s r h
    · rfl

theorem fillerRun_no_filler_of_flag (cfg : ThinkingFillerOptions)
    (s : FillerSelf) (evs : List FEv) (h : s.hasReceivedResponse = true)
    (hne : ∀ e ∈ evs, e ≠ FEv.notifyStart) :
    fillerCount (fillerRun cfg s evs).2.1 = 0 := by
  induction evs generalizing s with
  | nil => rfl
  | cons e rest ih =>
    have hstep := fillerStep_no_filler_of_flag cfg s e h
    have hflag := fillerStep_flag_mono cfg s e (hne e (by simp)) h
    simp only [fillerRun, fillerCount_append]
    rw [hstep, ih _ hflag fun x hx => hne x (by simp [hx])]

theorem transformStep_counter (s : FillerSelf) (tok : String) :
    (transformStep s tok).1.fillersEmittedThisTurn =
      s.fillersEmittedThisTurn := by
  unfold transformStep
  cases h1 : s.timeoutId <;> simp [h1] <;> split <;> rfl

theorem cancelPendingFiller_counter (s : FillerSelf) :
    (cancelPendingFiller s).fillersEmittedThisTurn =
      s.fillersEmittedThisTurn := by
  unfold cancelPendingFiller
  cases h1 : s.timeoutId <;> simp [h1] <;> split <;> rfl

theorem flushStep_counter (s : FillerSelf) :
    (flushStep s).fillersEmittedThisTurn = s.fillersEmittedThisTurn := by
  unfold flushStep
  cases h1 : s.timeoutId <;> simp [h1] <;> split <;> rfl

theorem timeoutBody_counter (cfg : ThinkingFillerOptions) (s : FillerSelf)
    (r : Nat) :
    (timeoutBody cfg s r).1.fillersEmittedThisTurn =
      s.fillersEmittedThisTurn + fillerCount (timeoutBody cfg s r).2.1 := by
  have hC := emitFiller_counter cfg s r
  unfold timeoutBody
  rcases hEq : emitFiller cfg s r with ⟨s1, outs, res⟩
  rw [hEq] at hC
  cases res with
  | error msg => exact hC
  | ok _ =>
    dsimp only []
    split <;> exact hC

theorem timeoutBody_counter_le (cfg : ThinkingFillerOptions) (s : FillerSelf)
    (r : Nat) (h : s.fillersEmittedThisTurn ≤ cfg.maxFillersPerTurn) :
    (timeoutBody cfg s r).1.fillersEmittedThisTurn ≤
      cfg.maxFillersPerTurn := by
  have hC := emitFiller_counter_le cfg s r h
  unfold timeoutBody
  rcases hEq : emitFiller cfg s r with ⟨s1, outs, res⟩
  rw [hEq] at hC
  cases res with
  | error msg => exact hC
  | ok _ =>
    dsimp only []
    split <;> exact hC

theorem intervalBody_counter (cfg : ThinkingFillerOptions) (s : FillerSelf)
    (r : Nat) :
    (intervalBody cfg s r).1.fillersEmittedThisTurn =
      s.fillersEmittedThisTurn + fillerCount (intervalBody cfg s r).2.1 := by
  have hC := emitFiller_counter cfg s r
  unfold intervalBody
  split
  · rcases hEq : emitFiller cfg s r with ⟨s1, outs, res⟩
    rw [hEq] at hC
    cases res with
    | error msg => exact hC
    | ok _ => exact hC
  · split <;> rfl

theorem intervalBody_counter_le (cfg : ThinkingFillerOptions) (s : FillerSelf)
    (r : Nat) (h : s.fillersEmittedThisTurn ≤ cfg.maxFillersPerTurn) :
    (intervalBody cfg s r).1.fillersEmittedThisTurn ≤
      cfg.maxFillersPerTurn := by
  have hC := emitFiller_counter_le cfg s r h
  unfold intervalBody
  split
  · rcases hEq : emitFiller cfg s r with ⟨s1, outs, res⟩
    rw [hEq] at hC
    cases res with
    | error msg => exact hC
    | ok _ => exact hC
  · split <;> exact h

theorem fillerStep_counter_eq (cfg : ThinkingFillerOptions) (s : FillerSelf)
    (e : FEv) (hne : e ≠ FEv.notifyStart) :
    (fillerStep cfg s e).1.fillersEmittedThisTurn =
      s.fillersEmittedThisTurn + fillerCount (fillerStep cfg s e).2.1 := by
  cases e with
  | startEv => rfl
  | notifyStart => exact absurd rfl hne
  | transformTok tok =>
    show (transformStep s tok).1.fillersEmittedThisTurn =
      s.fillersEmittedThisTurn + fillerCount (transformStep s tok).2
    rw [transformStep_counter]
    rfl
  | cancelPending =>
    show (cancelPendingFiller s).fillersEmittedThisTurn =
      s.fillersEmittedThisTurn + fillerCount []
    rw [cancelPendingFiller_counter]
    rfl
  | flushEv =>
    show (flushStep s).fillersEmittedThisTurn =
      s.fillersEmittedThisTurn + fillerCount []
    rw [flushStep_counter]
    rfl
  | timeoutFire id r =>
    simp only [fillerStep]
    split
    · exact timeoutBody_counter cfg _ r
    · rfl
  | intervalFire id r =>
    simp only [fillerStep]
    split
    · exact intervalBody_counter cfg s r
    · rfl

theorem fillerStep_counter_le (cfg : ThinkingFillerOptions) (s : FillerSelf)
    (e : FEv) (h : s.fillersEmittedThisTurn ≤ cfg.maxFillersPerTurn) :
    (fillerStep cfg s e).1.fillersEmittedThisTurn ≤
      cfg.maxFillersPerTurn := by
  cases e with
  | startEv => exact h
  | notifyStart =>
    show (notifyProcessingStarted cfg s).fillersEmittedThisTurn ≤ _
    unfold notifyProcessingStarted
    split
    · exact h
    · cases h1 : s.timeoutId <;> cases h2 : s.intervalId <;>
        simp [h1, h2] <;> omega
  | transformTok tok =>
    show (transformStep s tok).1.fillersEmittedThisTurn ≤ _
    rw [transformStep_counter]; exact h
  | cancelPending =>
    show (cancelPendingFiller s).fillersEmittedThisTurn ≤ _
    rw [cancelPendingFiller_counter]; exact h
  | flushEv =>
    show (flushStep s).fillersEmittedThisTurn ≤ _
    rw [flushStep_counter]; exact h
  | timeoutFire id r =>
    simp only [fillerStep]
    split
    · exact timeoutBody_counter_le cfg _ r h
    · exact h
  | intervalFire id r =>
    simp only [fillerStep]
    split
    · exact intervalBody_counter_le cfg s r h
    · exact h

theorem fillerRun_counter_le (cfg : ThinkingFillerOptions) (s : FillerSelf)
    (evs : List FEv) (h : s.fillersEmittedThisTurn ≤ cfg.maxFillersPerTurn) :
    (fillerRun cfg s evs).1.fillersEmittedThisTurn ≤
      cfg.maxFillersPerTurn := by
  induction evs generalizing s with
  | nil => exact h
  | cons e rest ih => exact ih _ (fillerStep_counter_le cfg s e h)

theorem fillerRun_counter_eq (cfg : ThinkingFillerOptions) (s : FillerSelf)
    (evs : List FEv) (hne : ∀ e ∈ evs, e ≠ FEv.notifyStart) :
    (fillerRun cfg s evs).1.fillersEmittedThisTurn =
      s.fillersEmittedThisTurn + fillerCount (fillerRun cfg s evs).2.1 := by
  induction evs generalizing s with
  | nil => rfl
  | cons e rest ih =>
    simp only [fillerRun, fillerCount_append]
    rw [ih _ fun x hx => hne x (by simp [hx]),
        fillerStep_counter_eq cfg s e (hne e (by simp))]
    omega

theorem erase_of_tinvPart {l : List Nat} {o : Option Nat} {h : Nat}
    (h1 : l = [] ∨ ∃ g, o = some g ∧ l = [g]) (ho : o = some h) :
    l.erase h = [] := by
  rcases h1 with hA | ⟨g, hg, hA⟩
  · simp [hA]
  · rw [ho] at hg
    injection hg with hg'
    subst hg'
    simp [hA]

theorem nil_of_tinvPart {l : List Nat} {o : Option Nat}
    (h1 : l = [] ∨ ∃ g, o = some g ∧ l = [g]) (ho : o = none) : l = [] := by
  rcases h1 with hA | ⟨g, hg, _⟩
  · exact hA
  · rw [ho] at hg
    cases hg

theorem cancelPendingFiller_actives (s : FillerSelf) (hT : TInv s) :
    (cancelPendingFiller s).activeTimeouts = [] ∧
    (cancelPendingFiller s).activeIntervals = [] := by
  obtain ⟨h1, h2, _⟩ := hT
  cases hf1 : s.timeoutId with
  | none =>
    cases hf2 : s.intervalId with
    | none =>
      simp only [cancelPendingFiller, hf1, hf2]
      exact ⟨nil_of_tinvPart h1 hf1, nil_of_tinvPart h2 hf2⟩
    | some g =>
      simp only [cancelPendingFiller, hf1, hf2]
      exact ⟨nil_of_tinvPart h1 hf1, erase_of_tinvPart h2 hf2⟩
  | some h =>
    cases hf2 : s.intervalId with
    | none =>
      simp only [cancelPendingFiller, hf1, hf2]
      exact ⟨erase_of_tinvPart h1 hf1, nil_of_tinvPart h2 hf2⟩
    | some g =>
      simp only [cancelPendingFiller, hf1, hf2]
      exact ⟨erase_of_tinvPart h1 hf1, erase_of_tinvPart h2 hf2⟩

theorem transformStep_actives (s : FillerSelf) (tok : String) (hT : TInv s) :
    (transformStep s tok).1.activeTimeouts = [] ∧
    (transformStep s tok).1.activeIntervals = [] := by
  obtain ⟨h1, h2, _⟩ := hT
  cases hf1 : s.timeoutId with
  | none =>
    cases hf2 : s.intervalId with
    | none =>
      simp only [transformStep, hf1, hf2]
      exact ⟨nil_of_tinvPart h1 hf1, nil_of_tinvPart h2 hf2⟩
    | some g =>
      simp only [transformStep, hf1, hf2]
      exact ⟨nil_of_tinvPart h1 hf1, erase_of_tinvPart h2 hf2⟩
  | some h =>
    cases hf2 : s.intervalId with
    | none =>
      simp only [transformStep, hf1, hf2]
      exact ⟨erase_of_tinvPart h1 hf1, nil_of_tinvPart h2 hf2⟩
    | some g =>
      simp only [transformStep, hf1, hf2]
      exact ⟨erase_of_tinvPart h1 hf1, erase_of_tinvPart h2 hf2⟩

theorem flushStep_actives (s : FillerSelf) (hT : TInv s) :
    (flushStep s).activeTimeouts = [] ∧
    (flushStep s).activeIntervals = [] := by
  obtain ⟨h1, h2, _⟩ := hT
  cases hf1 : s.timeoutId with
  | none =>
    cases hf2 : s.intervalId with
    | none =>
      simp only [flushStep, hf1, hf2]
      exact ⟨nil_of_tinvPart h1 hf1, nil_of_tinvPart h2 hf2⟩
    | some g =>
      simp only [flushStep, hf1, hf2]
      exact ⟨nil_of_tinvPart h1 hf1, erase_of_tinvPart h2 hf2⟩
  | some h =>
    cases hf2 : s.intervalId with
    | none =>
      simp only [flushStep, hf1, hf2]
      exact ⟨erase_of_tinvPart h1 hf1, nil_of_tinvPart h2 hf2⟩
    | some g =>
      simp only [flushStep, hf1, hf2]
      exact ⟨erase_of_tinvPart h1 hf1, erase_of_tinvPart h2 hf2⟩

theorem tinv_of_actives_nil {s : FillerSelf}
    (hA : s.activeTimeouts = []) (hB : s.activeIntervals = []) : TInv s :=
  ⟨Or.inl hA, Or.inl hB, fun _ => hB⟩

theorem tinv_init : TInv initFiller :=
  tinv_of_actives_nil rfl rfl

theorem tinv_step (cfg : ThinkingFillerOptions) (s : FillerSelf) (e : FEv)
    (hT : TInv s) : TInv (fillerStep cfg s e).1 := by
  cases e with
  | startEv => exact hT
  | notifyStart =>
    show TInv (notifyProcessingStarted cfg s)
    unfold notifyProcessingStarted
    split
    · exact hT
    · obtain ⟨h1, h2, _⟩ := hT
      cases hf1 : s.timeoutId with
      | none =>
        cases hf2 : s.intervalId with
        | none =>
          simp only [hf1, hf2]
          refine ⟨Or.inr ⟨s.nextTimer, rfl, ?_⟩, Or.inl ?_, fun _ => ?_⟩
          · rw [nil_of_tinvPart h1 hf1]
          · exact nil_of_tinvPart h2 hf2
          · exact nil_of_tinvPart h2 hf2
        | some g =>
          simp only [hf1, hf2]
          refine ⟨Or.inr ⟨s.nextTimer, rfl, ?_⟩, Or.inl ?_, fun _ => ?_⟩
          · rw [nil_of_tinvPart h1 hf1]
          · exact erase_of_tinvPart h2 hf2
          · exact erase_of_tinvPart h2 hf2
      | some h =>
        cases hf2 : s.intervalId with
        | none =>
          simp only [hf1, hf2]
          refine ⟨Or.inr ⟨s.nextTimer, rfl, ?_⟩, Or.inl ?_, fun _ => ?_⟩
          · rw [erase_of_tinvPart h1 hf1]
          · exact nil_of_tinvPart h2 hf2
          · exact nil_of_tinvPart h2 hf2
        | some g =>
          simp only [hf1, hf2]
          refine ⟨Or.inr ⟨s.nextTimer, rfl, ?_⟩, Or.inl ?_, fun _ => ?_⟩
          · rw [erase_of_tinvPart h1 hf1]
          · exact erase_of_tinvPart h2 hf2
          · exact erase_of_tinvPart h2 hf2
  | transformTok tok =>
    obtain ⟨hA, hB⟩ := transformStep_actives s tok hT
    exact tinv_of_actives_nil hA hB
  | cancelPending =>
    obtain ⟨hA, hB⟩ := cancelPendingFiller_actives s hT
    exact tinv_of_actives_nil hA hB
  | flushEv =>
    obtain ⟨hA, hB⟩ := flushStep_actives s hT
    exact tinv_of_actives_nil hA hB
  | timeoutFire id r =>
    simp only [fillerStep]
    split
    · next hmem =>
      obtain ⟨h1, h2, h3⟩ := hT
      -- a live timeout forces the singleton shape and an empty interval table
      rcases h1 with hA | ⟨g, hg, hA⟩
      · rw [hA] at hmem; cases hmem
      · have hid : id = g := by
          rw [hA] at hmem; simpa using hmem
        subst hid
        have hB : s.activeIntervals = [] := h3 (by rw [hA]; simp)
        have hAe : s.activeTimeouts.erase id = [] := by rw [hA]; simp
        have hEt := emitFiller_timers cfg
          { s with activeTimeouts := s.activeTimeouts.erase id } r
        unfold timeoutBody
        rcases hEq : emitFiller cfg
          { s with activeTimeouts := s.activeTimeouts.erase id } r
          with ⟨s1, outs, res⟩
        rw [hEq] at hEt
        obtain ⟨hT1, hT2, hT3, hT4, hT5⟩ := hEt
        cases res with
        | error msg =>
          exact tinv_of_actives_nil (by rw [hT3]; exact hAe)
            (by rw [hT4]; exact hB)
        | ok _ =>
          dsimp only []
          split
          · refine ⟨Or.inl ?_, Or.inr ⟨s1.nextTimer, rfl, ?_⟩, fun hne => ?_⟩
            · rw [hT3]; exact hAe
            · rw [hT4, hB]
            · exact absurd (by rw [hT3]; exact hAe) hne
          · exact tinv_of_actives_nil (by rw [hT3]; exact hAe)
              (by rw [hT4]; exact hB)
    · exact hT
  | intervalFire id r =>
    simp only [fillerStep]
    split
    · next hmem =>
      obtain ⟨h1, h2, h3⟩ := hT
      rcases h2 with hB | ⟨g, hg, hB⟩
      · rw [hB] at hmem; cases hmem
      · have hid : id = g := by
          rw [hB] at hmem; simpa using hmem
        subst hid
        have hA : s.activeTimeouts = [] := by
          by_contra hne
          rw [h3 hne] at hB
          cases hB
        unfold intervalBody
        split
        · have hEt := emitFiller_timers cfg s r
          rcases hEq : emitFiller cfg s r with ⟨s1, outs, res⟩
          rw [hEq] at hEt
          obtain ⟨hT1, hT2, hT3, hT4, hT5⟩ := hEt
          cases res with
          | error msg =>
            refine ⟨Or.inl (by rw [hT3]; exact hA),
                    Or.inr ⟨id, by rw [hT2]; exact hg, by rw [hT4]; exact hB⟩,
                    fun hne => absurd (by rw [hT3]; exact hA) hne⟩
          | ok _ =>
            refine ⟨Or.inl (by rw [hT3]; exact hA),
                    Or.inr ⟨id, by rw [hT2]; exact hg, by rw [hT4]; exact hB⟩,
                    fun hne => absurd (by rw [hT3]; exact hA) hne⟩
        · rw [hg]
          refine ⟨Or.inl hA, Or.inl ?_, fun _ => ?_⟩ <;>
            · rw [hB]
              simp
    · exact hT

theorem tinv_run (cfg : ThinkingFillerOptions) (s : FillerSelf)
    (evs : List FEv) (hT : TInv s) : TInv (fillerRun cfg s evs).1 := by
  induction evs generalizing s with
  | nil => exact hT
  | cons e rest ih => exact ih _ (tinv_step cfg s e hT)

theorem fillerStep_noTimers (cfg : ThinkingFillerOptions) (s : FillerSelf)
    (e : FEv) (hne : e ≠ FEv.notifyStart)
    (hA : s.activeTimeouts = []) (hB : s.activeIntervals = []) :
    (fillerStep cfg s e).1.activeTimeouts = [] ∧
    (fillerStep cfg s e).1.activeIntervals = [] ∧
    fillerCount (fillerStep cfg s e).2.1 = 0 := by
  cases e with
  | startEv => exact ⟨hA, hB, rfl⟩
  | notifyStart => exact absurd rfl hne
  | transformTok tok =>
    obtain ⟨hA2, hB2⟩ := transformStep_actives s tok (tinv_of_actives_nil hA hB)
    exact ⟨hA2, hB2, rfl⟩
  | cancelPending =>
    obtain ⟨hA2, hB2⟩ := cancelPendingFiller_actives s (tinv_of_actives_nil hA hB)
    exact ⟨hA2, hB2, rfl⟩
  | flushEv =>
    obtain ⟨hA2, hB2⟩ := flushStep_actives s (tinv_of_actives_nil hA hB)
    exact ⟨hA2, hB2, rfl⟩
  | timeoutFire id r =>
    simp only [fillerStep]
    rw [hA]
    simp only [List.not_mem_nil, if_false]
    exact ⟨hA, hB, rfl⟩
  | intervalFire id r =>
    simp only [fillerStep]
    rw [hB]
    simp only [List.not_mem_nil, if_false]
    exact ⟨hA, hB, rfl⟩

theorem fillerRun_noTimers (cfg : ThinkingFillerOptions) (s : FillerSelf)
    (evs : List FEv) (hne : ∀ e ∈ evs, e ≠ FEv.notifyStart)
    (hA : s.activeTimeouts = []) (hB : s.activeIntervals = []) :
    fillerCount (fillerRun cfg s evs).2.1 = 0 := by
  induction evs generalizing s with
  | nil => rfl
  | cons e rest ih =>
    obtain ⟨hA2, hB2, hc⟩ :=
      fillerStep_noTimers cfg s e (hne e (by simp)) hA hB
    simp only [fillerRun, fillerCount_append]
    rw [hc, ih _ (fun x hx => hne x (by simp [hx])) hA2 hB2]

/-! ## Claim theorems: FillerInjector -/

/-- C3: once `transform` has been called with the first real token of the turn
(which sets the "response received" flag), no filler phrase is enqueued
afterwards in that turn — any event sequence containing no new turn start
emits zero fillers; moreover `emitFiller` itself re-checks the flag
immediately before emitting, so even a timer callback that fires after the
token emits nothing. -/
theorem noFillerAfterFirstRealToken :
    (∀ (cfg : ThinkingFillerOptions) (s : FillerSelf) (r : Nat),
        s.hasReceivedResponse = true → emitFiller cfg s r = (s, [], .ok ())) ∧
    (∀ (cfg : ThinkingFillerOptions) (s : FillerSelf) (tok : String)
        (post : List FEv), (∀ e ∈ post, e ≠ FEv.notifyStart) →
        fillerCount
          (fillerRun cfg (fillerStep cfg s (.transformTok tok)).1 post).2.1
          = 0) := by
  refine ⟨emitFiller_of_flag, fun cfg s tok post hne => ?_⟩
  exact fillerRun_no_filler_of_flag cfg _ post (transformStep_flag s tok) hne

theorem noFillerAfterFirstRealToken_witness :
    ({ initFiller with hasReceivedResponse := true } :
        FillerSelf).hasReceivedResponse = true ∧
    emitFiller {} { initFiller with hasReceivedResponse := true } 0 =
      ({ initFiller with hasReceivedResponse := true }, [], .ok ()) ∧
    (∀ e ∈ [FEv.timeoutFire 0 0], e ≠ FEv.notifyStart) ∧
    fillerCount
      (fillerRun {} (fillerStep {} initFiller (.transformTok "hi")).1
        [FEv.timeoutFire 0 0]).2.1 = 0 :=
  ⟨rfl, noFillerAfterFirstRealToken.1 {} _ 0 rfl, by decide,
   noFillerAfterFirstRealToken.2 {} initFiller "hi" [FEv.timeoutFire 0 0]
     (by decide)⟩

/-- C4 (code bug evidence): `emitFiller` invokes the `onFillerEmitted`
observer callback with no surrounding try/catch (line 247), so a throwing
exception of the callback escapes `emitFiller` and the enclosing timer callback
uncaught — it is neither isolated nor logged by the transform.  The filler
has already been enqueued and counted before the callback runs, and a
subsequent real token is still passed through by the (separate) `transform`
invocation. -/
theorem onFillerEmittedExceptionEscapes :
    (emitFiller { onFillerEmitted := some fun _ => .error "boom" }
        { initFiller with controller := true } 0).2.2 = .error "boom" ∧
    (fillerRun { onFillerEmitted := some fun _ => .error "boom" } initFiller
        [.startEv, .notifyStart, .timeoutFire 0 0]).2.2 = ["boom"] ∧
    (fillerRun { onFillerEmitted := some fun _ => .error "boom" } initFiller
        [.startEv, .notifyStart, .timeoutFire 0 0, .transformTok "tok"]).2.1
      = [.filler "Let me see here...", .real "tok"] :=
  ⟨rfl, rfl, rfl⟩

/-- C5: for every configuration, every reachable turn state and every
interleaving of threshold-timer and interval-timer firings with no
intervening turn start, the number of filler phrases emitted never exceeds
`maxFillersPerTurn`. -/
theorem fillersPerTurnNeverExceedMax :
    ∀ (cfg : ThinkingFillerOptions) (evs post : List FEv),
      (∀ e ∈ post, e ≠ FEv.notifyStart) →
      fillerCount
        (fillerRun cfg (fillerRun cfg initFiller evs).1 post).2.1 ≤
        cfg.maxFillersPerTurn := by
  intro cfg evs post hne
  have hle : (fillerRun cfg initFiller evs).1.fillersEmittedThisTurn ≤
      cfg.maxFillersPerTurn :=
    fillerRun_counter_le cfg initFiller evs (Nat.zero_le _)
  have heq := fillerRun_counter_eq cfg (fillerRun cfg initFiller evs).1 post hne
  have hle2 : (fillerRun cfg (fillerRun cfg initFiller evs).1 post).1.fillersEmittedThisTurn ≤
      cfg.maxFillersPerTurn :=
    fillerRun_counter_le cfg _ post hle
  omega

theorem fillersPerTurnNeverExceedMax_witness :
    (∀ e ∈ [FEv.timeoutFire 0 0, FEv.intervalFire 1 1],
        e ≠ FEv.notifyStart) ∧
    fillerCount
      (fillerRun { maxFillersPerTurn := 3 }
        (fillerRun { maxFillersPerTurn := 3 } initFiller
          [.startEv, .notifyStart]).1
        [FEv.timeoutFire 0 0, FEv.intervalFire 1 1]).2.1 ≤
      ({ maxFillersPerTurn := 3 } : ThinkingFillerOptions).maxFillersPerTurn :=
  ⟨by decide,
   fillersPerTurnNeverExceedMax { maxFillersPerTurn := 3 }
     [.startEv, .notifyStart] [FEv.timeoutFire 0 0, FEv.intervalFire 1 1]
     (by decide)⟩

/-- C8: `cancelPendingFiller` is idempotent, leaves the "response received"
flag unchanged, and — called at any time on any reachable state — cancels
all live filler timers, so no filler is emitted afterwards until the next
turn start, even if a timer was already scheduled. -/
theorem cancelPendingFillerIdempotentScoped :
    (∀ s : FillerSelf,
        cancelPendingFiller (cancelPendingFiller s) = cancelPendingFiller s) ∧
    (∀ s : FillerSelf,
        (cancelPendingFiller s).hasReceivedResponse = s.hasReceivedResponse) ∧
    (∀ (cfg : ThinkingFillerOptions) (evs post : List FEv),
        (∀ e ∈ post, e ≠ FEv.notifyStart) →
        fillerCount
          (fillerRun cfg
            (cancelPendingFiller (fillerRun cfg initFiller evs).1)
            post).2.1 = 0) := by
  refine ⟨?_, cancelPendingFiller_flag, ?_⟩
  · intro s
    cases h1 : s.timeoutId <;> cases h2 : s.intervalId <;>
      simp [cancelPendingFiller, h1, h2]
  · intro cfg evs post hne
    have hT := tinv_run cfg initFiller evs tinv_init
    obtain ⟨hA, hB⟩ := cancelPendingFiller_actives _ hT
    have hA2 : (cancelPendingFiller (fillerRun cfg initFiller evs).1).activeTimeouts = [] := hA
    exact fillerRun_noTimers cfg _ post hne hA2 hB

theorem cancelPendingFillerIdempotentScoped_witness :
    (∀ e ∈ [FEv.timeoutFire 0 0], e ≠ FEv.notifyStart) ∧
    (cancelPendingFiller initFiller).hasReceivedResponse =
      initFiller.hasReceivedResponse ∧
    fillerCount
      (fillerRun {}
        (cancelPendingFiller (fillerRun {} initFiller
          [.startEv, .notifyStart]).1)
        [FEv.timeoutFire 0 0]).2.1 = 0 :=
  ⟨by decide, cancelPendingFillerIdempotentScoped.2.1 initFiller,
   cancelPendingFillerIdempotentScoped.2.2 {} [.startEv, .notifyStart]
     [FEv.timeoutFire 0 0] (by decide)⟩

/-! ## Lemmas: ElevenLabsTTSTransform -/

theorem finalInv_resolveFinal {s : AdapterState} (h : FinalInv s) :
    FinalInv (resolveFinal s) := by
  unfold resolveFinal
  split
  · next hs =>
    refine ⟨?_, fun hc => ?_⟩
    · have := h.2 hs
      simp only []
      omega
    · simp at hc
  · exact h

theorem finalInv_resetFinalPromise (s : AdapterState) :
    FinalInv (resetFinalPromise s) :=
  ⟨by simp [resetFinalPromise], fun _ => rfl⟩

theorem finalInv_createConnection (s : AdapterState) :
    FinalInv (createConnection s).1 :=
  ⟨by simp [createConnection, resetFinalPromise], fun _ => rfl⟩

theorem finalInv_afterExistingFulfilled {s : AdapterState} (tok : String)
    (h : FinalInv s) : FinalInv (afterExistingFulfilled s tok) := by
  unfold afterExistingFulfilled
  split
  · exact h
  · exact finalInv_createConnection s

theorem finalInv_startTransform {s : AdapterState} (tok : String)
    (h : FinalInv s) : FinalInv (startTransform s tok) := by
  unfold startTransform
  split
  · exact h
  · split
    · exact h
    · split
      · split
        · exact h
        · exact finalInv_afterExistingFulfilled tok h
        · exact h
      · exact finalInv_createConnection s

theorem finalInv_resumeFulfilled {s : AdapterState} (p : Nat)
    (h : FinalInv s) : FinalInv (resumeFulfilled s p) := by
  unfold resumeFulfilled
  split
  · split
    · split
      · exact finalInv_afterExistingFulfilled _ h
      · split
        · exact h
        · exact h
    · exact h
  · exact h

theorem finalInv_resumeRejected {s : AdapterState} (p : Nat)
    (h : FinalInv s) : FinalInv (resumeRejected s p) := by
  unfold resumeRejected
  split
  · split
    · exact h
    · exact h
  · exact h

theorem finalInv_stepOpen (opts : ElevenLabsOptions) {s : AdapterState}
    (i : Nat) (h : FinalInv s) : FinalInv (stepOpen opts s i) := by
  unfold stepOpen
  split
  · split
    · exact finalInv_resumeFulfilled i h
    · exact h
  · exact h

theorem finalInv_clearIfCurrent {s : AdapterState} (i : Nat)
    (h : FinalInv s) : FinalInv (clearIfCurrent s i) := by
  unfold clearIfCurrent
  split <;> exact h

theorem finalInv_errorSettle {s : AdapterState} (i : Nat)
    (h : FinalInv s) : FinalInv (errorSettle s i) := by
  unfold errorSettle
  split
  · exact finalInv_resumeRejected i h
  · exact h

theorem finalInv_stepError (opts : ElevenLabsOptions) {s : AdapterState}
    (i : Nat) (h : FinalInv s) : FinalInv (stepError opts s i) := by
  unfold stepError
  split
  · split
    · exact h
    · exact finalInv_errorSettle i (finalInv_clearIfCurrent i h)
  · exact h

theorem finalInv_stepClose (opts : ElevenLabsOptions) {s : AdapterState}
    (i : Nat) (h : FinalInv s) : FinalInv (stepClose opts s i) := by
  unfold stepClose
  split
  · split
    · exact h
    · exact finalInv_resolveFinal (finalInv_clearIfCurrent i h)
  · exact h

theorem finalInv_adapterStep (opts : ElevenLabsOptions) {s : AdapterState}
    (e : AEv) (h : FinalInv s) : FinalInv (adapterStep opts s e) := by
  cases e with
  | token tok =>
    show FinalInv (if s.pending = none then startTransform s tok else s)
    split
    · exact finalInv_startTransform tok h
    · exact h
  | openEv i => exact finalInv_stepOpen opts i h
  | errorEv i => exact finalInv_stepError opts i h
  | closeEv i => exact finalInv_stepClose opts i h
  | msgAudio i payload =>
    show FinalInv (stepMsgAudio s i payload)
    unfold stepMsgAudio
    split <;> exact h
  | msgFinal i =>
    show FinalInv (stepMsgFinal s i)
    unfold stepMsgFinal
    split
    · exact finalInv_resolveFinal h
    · exact h
  | msgError i e => exact h

theorem finalInv_adapterRun (opts : ElevenLabsOptions) (s : AdapterState)
    (evs : List AEv) (h : FinalInv s) :
    FinalInv (adapterRun opts s evs) := by
  induction evs generalizing s with
  | nil => exact h
  | cons e rest ih => exact ih _ (finalInv_adapterStep opts e h)

theorem finalInv_init : FinalInv initAdapter :=
  ⟨by decide, fun h => by cases h⟩

theorem resolveFinal_of_slot {s : AdapterState} (h : s.finalSlot = true) :
    (resolveFinal s).finalSlot = false ∧
    (resolveFinal s).finalGenResolved = s.finalGenResolved + 1 := by
  unfold resolveFinal
  rw [if_pos h]
  exact ⟨rfl, rfl⟩

theorem clearIfCurrent_final (s : AdapterState) (i : Nat) :
    (clearIfCurrent s i).finalSlot = s.finalSlot ∧
    (clearIfCurrent s i).finalGenResolved = s.finalGenResolved := by
  unfold clearIfCurrent
  split <;> exact ⟨rfl, rfl⟩

theorem jsOrNum_zero (d : ℚ) : jsOrNum (some 0) d = d := by
  simp [jsOrNum]

theorem jsOrNum_ne_zero (o : Option ℚ) (d : ℚ) (hd : d ≠ 0) :
    jsOrNum o d ≠ 0 := by
  cases o with
  | none => exact hd
  | some q =>
    show (if q = 0 then d else q) ≠ 0
    split
    · exact hd
    · next hq => exact hq

theorem bosStabilityVal_eq (opts : ElevenLabsOptions) :
    bosStabilityVal opts = some (.num (jsOrNum opts.stability (1/2))) := rfl

theorem bosSimilarityVal_eq (opts : ElevenLabsOptions) :
    bosSimilarityVal opts =
      some (.num (jsOrNum opts.similarityBoost (3/4))) := rfl

theorem sentInv_append_token {opts : ElevenLabsOptions} {T : String → Prop}
    {sent : List JVal} (tok : String)
    (h : ∀ m ∈ sent, MsgOk opts T m) (ht : T tok) :
    ∀ m ∈ sent ++ [tokenPayload tok], MsgOk opts T m := by
  intro m hm
  rcases List.mem_append.1 hm with hm | hm
  · exact h m hm
  · rw [List.mem_singleton.1 hm]
    exact Or.inr ⟨tok, rfl, ht⟩

theorem sentInv_afterExistingFulfilled {opts : ElevenLabsOptions}
    {T : String → Prop} {s : AdapterState} (tok : String)
    (h : SentInv opts T s) (ht : T tok) :
    SentInv opts T (afterExistingFulfilled s tok) := by
  unfold afterExistingFulfilled
  split
  · exact ⟨sentInv_append_token tok h.1 ht, fun pt hpt => h.2 pt hpt⟩
  · refine ⟨fun m hm => h.1 m hm, fun pt hpt => ?_⟩
    have hpt2 : pt = ⟨tok, .freshAttempt (createConnection s).2⟩ := by
      injection hpt with h1
      exact h1.symm
    rw [hpt2]
    exact ht

theorem sentInv_startTransform {opts : ElevenLabsOptions}
    {T : String → Prop} {s : AdapterState} (tok : String)
    (h : SentInv opts T s) (ht : T tok) :
    SentInv opts T (startTransform s tok) := by
  unfold startTransform
  split
  · exact h
  · split
    · exact ⟨sentInv_append_token tok h.1 ht, fun pt hpt => h.2 pt hpt⟩
    · split
      · split
        · refine ⟨fun m hm => h.1 m hm, fun pt hpt => ?_⟩
          have hpt2 : pt.tok = tok := by
            injection hpt with h1
            rw [← h1]
          rw [hpt2]
          exact ht
        · exact sentInv_afterExistingFulfilled tok h ht
        · exact ⟨fun m hm => h.1 m hm, fun pt hpt => h.2 pt hpt⟩
      · refine ⟨fun m hm => h.1 m hm, fun pt hpt => ?_⟩
        have hpt2 : pt = ⟨tok, .freshAttempt (createConnection s).2⟩ := by
          injection hpt with h1
          exact h1.symm
        rw [hpt2]
        exact ht

theorem sentInv_resumeFulfilled {opts : ElevenLabsOptions}
    {T : String → Prop} {s : AdapterState} (p : Nat)
    (h : SentInv opts T s) : SentInv opts T (resumeFulfilled s p) := by
  unfold resumeFulfilled
  split
  · next pt heq =>
    have ht : T pt.tok := h.2 pt heq
    have h1 : SentInv opts T { s with pending := none } :=
      ⟨fun m hm => h.1 m hm, fun pt' hpt' => Option.noConfusion hpt'⟩
    split
    · split
      · exact sentInv_afterExistingFulfilled pt.tok h1 ht
      · split
        · exact ⟨sentInv_append_token pt.tok h.1 ht,
                 fun pt' hpt' => Option.noConfusion hpt'⟩
        · exact ⟨fun m hm => h.1 m hm,
                 fun pt' hpt' => Option.noConfusion hpt'⟩
    · exact h
  · exact h

theorem sentInv_resumeRejected {opts : ElevenLabsOptions}
    {T : String → Prop} {s : AdapterState} (p : Nat)
    (h : SentInv opts T s) : SentInv opts T (resumeRejected s p) := by
  unfold resumeRejected
  split
  · split
    · exact ⟨fun m hm => h.1 m hm, fun pt' hpt' => Option.noConfusion hpt'⟩
    · exact h
  · exact h

theorem sentInv_stepOpen (opts : ElevenLabsOptions) {T : String → Prop}
    {s : AdapterState} (i : Nat) (h : SentInv opts T s) :
    SentInv opts T (stepOpen opts s i) := by
  unfold stepOpen
  split
  · split
    · refine sentInv_resumeFulfilled i ⟨fun m hm => ?_, fun pt hpt => h.2 pt hpt⟩
      rcases List.mem_append.1 hm with hm | hm
      · exact h.1 m hm
      · rw [List.mem_singleton.1 hm]
        exact Or.inl rfl
    · exact h
  · exact h

theorem sentInv_clearIfCurrent {opts : ElevenLabsOptions} {T : String → Prop}
    {s : AdapterState} (i : Nat) (h : SentInv opts T s) :
    SentInv opts T (clearIfCurrent s i) := by
  unfold clearIfCurrent
  split
  · exact ⟨fun m hm => h.1 m hm, fun pt hpt => h.2 pt hpt⟩
  · exact h

theorem sentInv_errorSettle {opts : ElevenLabsOptions} {T : String → Prop}
    {s : AdapterState} (i : Nat) (h : SentInv opts T s) :
    SentInv opts T (errorSettle s i) := by
  unfold errorSettle
  split
  · exact sentInv_resumeRejected i
      ⟨fun m hm => h.1 m hm, fun pt hpt => h.2 pt hpt⟩
  · exact h

theorem sentInv_resolveFinal {opts : ElevenLabsOptions} {T : String → Prop}
    {s : AdapterState} (h : SentInv opts T s) :
    SentInv opts T (resolveFinal s) := by
  unfold resolveFinal
  split
  · exact ⟨fun m hm => h.1 m hm, fun pt hpt => h.2 pt hpt⟩
  · exact h

theorem sentInv_adapterStep (opts : ElevenLabsOptions) {T : String → Prop}
    {s : AdapterState} (e : AEv) (h : SentInv opts T s)
    (htok : ∀ tok, e = AEv.token tok → T tok) :
    SentInv opts T (adapterStep opts s e) := by
  cases e with
  | token tok =>
    show SentInv opts T (if s.pending = none then startTransform s tok else s)
    split
    · exact sentInv_startTransform tok h (htok tok rfl)
    · exact h
  | openEv i => exact sentInv_stepOpen opts i h
  | errorEv i =>
    show SentInv opts T (stepError opts s i)
    unfold stepError
    split
    · split
      · exact h
      · exact sentInv_errorSettle i (sentInv_clearIfCurrent i
          ⟨fun m hm => h.1 m hm, fun pt hpt => h.2 pt hpt⟩)
    · exact h
  | closeEv i =>
    show SentInv opts T (stepClose opts s i)
    unfold stepClose
    split
    · split
      · exact h
      · exact sentInv_resolveFinal (sentInv_clearIfCurrent i
          ⟨fun m hm => h.1 m hm, fun pt hpt => h.2 pt hpt⟩)
    · exact h
  | msgAudio i payload =>
    show SentInv opts T (stepMsgAudio s i payload)
    unfold stepMsgAudio
    split
    · exact ⟨fun m hm => h.1 m hm, fun pt hpt => h.2 pt hpt⟩
    · exact h
  | msgFinal i =>
    show SentInv opts T (stepMsgFinal s i)
    unfold stepMsgFinal
    split
    · exact sentInv_resolveFinal h
    · exact h
  | msgError i e => exact h

theorem sentInv_adapterRun (opts : ElevenLabsOptions) {T : String → Prop}
    (s : AdapterState) (evs : List AEv) (h : SentInv opts T s)
    (hEvs : ∀ tok, AEv.token tok ∈ evs → T tok) :
    SentInv opts T (adapterRun opts s evs) := by
  induction evs generalizing s with
  | nil => exact h
  | cons e rest ih =>
    exact ih _
      (sentInv_adapterStep opts e h
        (fun tok he => hEvs tok (by rw [he]; simp)))
      (fun tok ht => hEvs tok (by simp [ht]))

/-! ## Claim theorems: StreamingSynthesisAdapter -/

/-- C1 (code bug evidence): a connection attempt that fails before its `open`
handler ran never clears `connectionPromise` — the `ws === newWs` guard of
the error and close handlers is false because `ws` is assigned only on open.
In the run below the attempt of the first token is rejected (and the socket then
closes); the token is logged and dropped and the stream does not fail, but
the state is not reset to Disconnected (`connectionPromise` still holds the
rejected attempt), and the following tokens do not start a fresh attempt:
they re-await the same rejected promise and are dropped — only one socket is
ever created and nothing is ever sent. -/
theorem failedConnectAttemptStaysStuck :
    (adapterRun optsKV initAdapter
      [.token "a", .errorEv 0, .closeEv 0, .token "b", .token "c"]).dropped
      = ["a", "b", "c"] ∧
    (adapterRun optsKV initAdapter
      [.token "a", .errorEv 0, .closeEv 0, .token "b", .token "c"]).sockets.length
      = 1 ∧
    (adapterRun optsKV initAdapter
      [.token "a", .errorEv 0, .closeEv 0, .token "b", .token "c"]).connectionPromise
      = some 0 ∧
    (adapterRun optsKV initAdapter
      [.token "a", .errorEv 0, .closeEv 0, .token "b", .token "c"]).sent
      = [] :=
  ⟨rfl, rfl, rfl, rfl⟩

/-- C2: flush always completes within the (hard-coded) 5000 ms timeout: the
race of the final waiter and the timeout resolves by `tFlush +
flushTimeoutMs` whether the remote acknowledges (at `tf`), never
acknowledges, or the socket is not even open; and an unexpected close
resolves the pending flush waiter (close handler, lines 103–107), settling
the race at the close. -/
theorem flushAlwaysCompletesWithinTimeout :
    (∀ (w : Bool) (finalAt : Option Nat) (t : Nat),
        flushCompleteTime w finalAt t ≤ t + flushTimeoutMs) ∧
    (∀ tf t : Nat, raceResolveTime (some tf) t = min tf (t + flushTimeoutMs)) ∧
    (∀ t : Nat, raceResolveTime none t = t + flushTimeoutMs) ∧
    (∀ (opts : ElevenLabsOptions) (s : AdapterState) (i : Nat) (sk : Sock),
        s.sockets.get? i = some sk → sk.closeRan = false →
        s.finalSlot = true →
        (adapterStep opts s (.closeEv i)).finalSlot = false ∧
        (adapterStep opts s (.closeEv i)).finalGenResolved =
          s.finalGenResolved + 1) := by
  refine ⟨fun w finalAt t => ?_, fun tf t => rfl, fun t => rfl,
          fun opts s i sk hsk hcr hslot => ?_⟩
  · unfold flushCompleteTime raceResolveTime
    cases w with
    | false => simp
    | true =>
      cases finalAt with
      | none => simp
      | some tf => simp [Nat.min_le_right]
  · show (stepClose opts s i).finalSlot = false ∧
      (stepClose opts s i).finalGenResolved = s.finalGenResolved + 1
    unfold stepClose
    rw [hsk]
    dsimp only []
    rw [if_neg (by rw [hcr]; exact Bool.false_ne_true)]
    have h1 : (clearIfCurrent
        { s with sockets := s.sockets.set i { sk with phase := .closedSock, closeRan := true } }
        i).finalSlot = true := by
      rw [(clearIfCurrent_final _ _).1]
      exact hslot
    obtain ⟨ha, hb⟩ := resolveFinal_of_slot h1
    refine ⟨ha, ?_⟩
    rw [hb, (clearIfCurrent_final _ _).2]

theorem flushAlwaysCompletesWithinTimeout_witness :
    flushCompleteTime true (some 7000) 1000 ≤ 1000 + flushTimeoutMs ∧
    (adapterRun optsKV initAdapter [.token "a", .openEv 0]).sockets.get? 0 =
      some ⟨.opened, false⟩ ∧
    (adapterRun optsKV initAdapter [.token "a", .openEv 0]).finalSlot = true ∧
    (adapterStep optsKV (adapterRun optsKV initAdapter [.token "a", .openEv 0])
      (.closeEv 0)).finalSlot = false :=
  ⟨flushAlwaysCompletesWithinTimeout.1 true (some 7000) 1000, rfl, rfl,
   (flushAlwaysCompletesWithinTimeout.2.2.2 optsKV
     (adapterRun optsKV initAdapter [.token "a", .openEv 0]) 0
     ⟨.opened, false⟩ rfl rfl rfl).1⟩

/-- C7 counterexample: constructing the transform with an empty (missing)
`apiKey` and `voiceId` succeeds — the constructor performs no validation, so
the claim that construction fails fast on a missing credential is false. -/
theorem constructorAcceptsMissingCredentials :
    mkElevenLabsTTSTransform { apiKey := "", voiceId := "" } =
      .ok initAdapter := rfl

/-- C7 amended: construction never fails for any options record (no runtime
validation is performed); a missing or invalid credential surfaces only at
the first connection attempt, where the raw `apiKey` is embedded verbatim in
the BOS handshake message. -/
theorem constructionNeverFailsValidationDeferred :
    ∀ opts : ElevenLabsOptions,
      mkElevenLabsTTSTransform opts = .ok initAdapter ∧
      lookupKey (bosMessage opts) "xi_api_key" = some (.str opts.apiKey) :=
  fun _ => ⟨rfl, rfl⟩

/-- C9: for every run, the pending-flush waiter (a single nullable slot, so
at most one waiter exists at any time) is resolved at most once per
`finalPromise` generation: the first `isFinal` signal (or close) resolves and
clears it, and while the slot is still installed nothing has resolved it;
moreover an `isFinal` message arriving with no installed waiter — because a
previous signal or a close already resolved it — leaves the state entirely
unchanged. -/
theorem finalWaiterResolvedAtMostOnce :
    (∀ (opts : ElevenLabsOptions) (evs : List AEv),
        (adapterRun opts initAdapter evs).finalGenResolved ≤ 1 ∧
        ((adapterRun opts initAdapter evs).finalSlot = true →
          (adapterRun opts initAdapter evs).finalGenResolved = 0)) ∧
    (∀ (s : AdapterState) (i : Nat),
        s.finalSlot = false → stepMsgFinal s i = s) := by
  refine ⟨fun opts evs =>
    finalInv_adapterRun opts initAdapter evs finalInv_init,
    fun s i h => ?_⟩
  unfold stepMsgFinal resolveFinal
  rw [h]
  simp

theorem finalWaiterResolvedAtMostOnce_witness :
    (adapterRun optsKV initAdapter [.token "a", .openEv 0]).finalSlot =
      true ∧
    (adapterRun optsKV initAdapter [.token "a", .openEv 0]).finalGenResolved
      = 0 ∧
    (adapterRun optsKV initAdapter
      [.token "a", .openEv 0, .msgFinal 0, .msgFinal 0]).finalGenResolved
      ≤ 1 ∧
    (adapterRun optsKV initAdapter
      [.token "a", .openEv 0, .closeEv 0]).finalSlot = false ∧
    stepMsgFinal
      (adapterRun optsKV initAdapter [.token "a", .openEv 0, .closeEv 0]) 0
      = adapterRun optsKV initAdapter [.token "a", .openEv 0, .closeEv 0] :=
  ⟨rfl,
   (finalWaiterResolvedAtMostOnce.1 optsKV [.token "a", .openEv 0]).2 rfl,
   (finalWaiterResolvedAtMostOnce.1 optsKV
     [.token "a", .openEv 0, .msgFinal 0, .msgFinal 0]).1,
   rfl,
   finalWaiterResolvedAtMostOnce.2
     (adapterRun optsKV initAdapter [.token "a", .openEv 0, .closeEv 0]) 0
     rfl⟩

/-- C10: configuring `stability = 0` or `similarityBoost = 0` puts the
defaults 0.5 and 0.75 — not 0 — into the BOS message (the options are
combined with the defaults by the falsy-coalescing `||`), and no options
record whatsoever can put a zero in either field. -/
theorem zeroTuningCoalescesToDefaults :
    ∀ opts : ElevenLabsOptions,
      (opts.stability = some 0 → bosStabilityVal opts = some (.num (1/2))) ∧
      (opts.similarityBoost = some 0 →
        bosSimilarityVal opts = some (.num (3/4))) ∧
      (∀ q : ℚ, bosStabilityVal opts = some (.num q) → q ≠ 0) ∧
      (∀ q : ℚ, bosSimilarityVal opts = some (.num q) → q ≠ 0) := by
  intro opts
  refine ⟨fun h => ?_, fun h => ?_, fun q hq => ?_, fun q hq => ?_⟩
  · rw [bosStabilityVal_eq, h, jsOrNum_zero]
  · rw [bosSimilarityVal_eq, h, jsOrNum_zero]
  · rw [bosStabilityVal_eq] at hq
    injection hq with h1
    injection h1 with h2
    have := jsOrNum_ne_zero opts.stability (1/2) (by norm_num)
    rw [h2] at this
    exact this
  · rw [bosSimilarityVal_eq] at hq
    injection hq with h1
    injection h1 with h2
    have := jsOrNum_ne_zero opts.similarityBoost (3/4) (by norm_num)
    rw [h2] at this
    exact this

theorem zeroTuningCoalescesToDefaults_witness :
    ({ apiKey := "k", voiceId := "v", stability := some 0,
       similarityBoost := some 0 } : ElevenLabsOptions).stability = some 0 ∧
    bosStabilityVal
      { apiKey := "k", voiceId := "v", stability := some 0,
        similarityBoost := some 0 } = some (.num (1/2)) ∧
    ({ apiKey := "k", voiceId := "v", stability := some 0,
       similarityBoost := some 0 } :
        ElevenLabsOptions).similarityBoost = some 0 ∧
    bosSimilarityVal
      { apiKey := "k", voiceId := "v", stability := some 0,
        similarityBoost := some 0 } = some (.num (3/4)) :=
  ⟨rfl,
   (zeroTuningCoalescesToDefaults
     { apiKey := "k", voiceId := "v", stability := some 0,
       similarityBoost := some 0 }).1 rfl,
   rfl,
   (zeroTuningCoalescesToDefaults
     { apiKey := "k", voiceId := "v", stability := some 0,
       similarityBoost := some 0 }).2.1 rfl⟩

/-- C6 counterexample: in a concrete run where token "Hello" is sent over an
open connection, the message actually sent carries the trigger hint under the
key "try_trigger_generation" — a lookup of the key "trigger_generation"
claimed by the spec finds nothing, so the claimed message shape
`\x7b text, trigger_generation \x7d` is false on the code. -/
theorem tokenMessageKeyIsTryTriggerGeneration :
    lookupKey ((adapterRun optsKV initAdapter
        [.token "Hello", .openEv 0]).sent.getD 1 (.obj []))
      "trigger_generation" = none ∧
    lookupKey ((adapterRun optsKV initAdapter
        [.token "Hello", .openEv 0]).sent.getD 1 (.obj []))
      "try_trigger_generation" = some (.bool true) ∧
    lookupKey ((adapterRun optsKV initAdapter
        [.token "Hello", .openEv 0]).sent.getD 1 (.obj []))
      "text" = some (.str "Hello") ∧
    (adapterRun optsKV initAdapter
      [.token "Hello", .openEv 0]).sent.length = 2 :=
  ⟨rfl, rfl, rfl, rfl⟩

/-- C6 amended: every message the adapter ever passes to `ws.send` in any run
is either the BOS handshake or the per-token message
`\x7b text: <token>, try_trigger_generation: true \x7d` for a token that was
actually delivered to the transform: the token text under "text" and the
trigger hint under the key "try_trigger_generation" (not
"trigger_generation") set to true. -/
theorem sentTokenMessagesShape :
    ∀ (opts : ElevenLabsOptions) (evs : List AEv),
      ∀ m ∈ (adapterRun opts initAdapter evs).sent,
        m = bosMessage opts ∨
        ∃ tok, m = .obj [("text", .str tok),
                         ("try_trigger_generation", .bool true)] ∧
          AEv.token tok ∈ evs := by
  intro opts evs m hm
  have h := sentInv_adapterRun opts (T := fun tok => AEv.token tok ∈ evs)
    initAdapter evs
    ⟨fun m hm => absurd hm (List.not_mem_nil m),
     fun pt hpt => Option.noConfusion hpt⟩
    (fun _ ht => ht)
  rcases h.1 m hm with h1 | ⟨tok, hm2, ht⟩
  · exact Or.inl h1
  · exact Or.inr ⟨tok, hm2, ht⟩

theorem sentTokenMessagesShape_witness :
    tokenPayload "Hello" ∈
      (adapterRun optsKV initAdapter [.token "Hello", .openEv 0]).sent ∧
    (tokenPayload "Hello" = bosMessage optsKV ∨
      ∃ tok, tokenPayload "Hello" =
          .obj [("text", .str tok), ("try_trigger_generation", .bool true)] ∧
        AEv.token tok ∈ [AEv.token "Hello", AEv.openEv 0]) := by
  have hmem : tokenPayload "Hello" ∈
      (adapterRun optsKV initAdapter [.token "Hello", .openEv 0]).sent :=
    List.mem_cons_of_mem _ (List.mem_cons_self _ _)
  exact ⟨hmem,
    sentTokenMessagesShape optsKV [.token "Hello", .openEv 0]
      (tokenPayload "Hello") hmem⟩

end CVA
